import Mathlib

/-!
Shallow embedding of the reaction (like/dislike), favorite, and rating logic
of the ah-backend-groot repository (`authors/apps/articles/views.py` and
`authors/apps/articles/serializers.py`), together with proofs of the
specification claims about them.

The database tables are embedded as Lean lists of rows; Django ORM calls
(`objects.get`, `create`, `save`, `delete`) become explicit list operations.
`Model.objects.get` raises `DoesNotExist` when no row matches and
`MultipleObjectsReturned` when several do; both are embedded as error values.
-/

namespace AhBackendGroot

/-- The vote value of a `LikeDislike` row.  The `LikeDislike` model itself is
not under `src/`; the spec fixes its vote attribute as an enum LIKE | DISLIKE,
and `urls.py` wires `LikeDislike.LIKE` / `LikeDislike.DISLIKE` into the two
`ChoiceView` endpoints. -/
inductive Vote where
  | LIKE
  | DISLIKE
deriving DecidableEq, Repr

/-- One row of the shared `LikeDislike` table: a polymorphic reference
(content type + object id), the acting user, and the vote value
(migration `0002_auto_20190917_1038.py` shows the `content_type` and `user`
foreign keys). -/
structure LikeDislikeRow where
  content_type : Nat
  object_id : Nat
  user : Nat
  vote : Vote
deriving DecidableEq, Repr

/-- The fields of an `Article` row that the embedded views read or write. -/
structure Article where
  id : Nat
  slug : String
  author_id : Nat
  favorited : Bool
  favorites_count : Int
deriving DecidableEq, Repr

/-- The slice of database state that `ChoiceView.post` touches: the article
table and the shared `LikeDislike` table. -/
structure DB where
  articles : List Article
  reactions : List LikeDislikeRow
deriving DecidableEq, Repr

/-- Errors surfaced by the embedded operations.  `doesNotExist` is the ORM
`DoesNotExist` exception (the spec's NotFound: target content item absent);
`multipleObjectsReturned` is the ORM exception of the same name;
`unauthorized` is rejection of an unauthenticated caller. -/
inductive Err where
  | doesNotExist
  | multipleObjectsReturned
  | unauthorized
deriving DecidableEq, Repr

/-- The filter used by `LikeDislike.objects.get(content_type=..., object_id=...,
user=...)` in `ChoiceView.post`. -/
def keyMatches (ct oid u : Nat) (r : LikeDislikeRow) : Bool :=
  r.content_type == ct && r.object_id == oid && r.user == u

/-- The identifying triple of a `LikeDislike` row. -/
def rowKey (r : LikeDislikeRow) : Nat × Nat × Nat :=
  (r.content_type, r.object_id, r.user)

/-- `self.model.objects.get(slug=slug)` for the Article model. -/
def objectsGetArticle (articles : List Article) (slug : String) :
    Except Err Article :=
  match articles.filter (fun a => a.slug == slug) with
  | [] => .error .doesNotExist
  | [a] => .ok a
  | _ :: _ :: _ => .error .multipleObjectsReturned

/-- `LikeDislike.objects.get(content_type=..., object_id=..., user=...)`. -/
def objectsGetLikeDislike (rs : List LikeDislikeRow) (ct oid u : Nat) :
    Except Err LikeDislikeRow :=
  match rs.filter (keyMatches ct oid u) with
  | [] => .error .doesNotExist
  | [r] => .ok r
  | _ :: _ :: _ => .error .multipleObjectsReturned

/-- `ChoiceView.post` (`views.py` lines 149-167).  `vote_type` and the target
model are fixed per endpoint by `urls.py`; `ct` is
`ContentType.objects.get_for_model(obj)` for that model.  The Python
`likedislike.vote is not self.vote_type` compares small interned vote
constants, i.e. value inequality.  `likedislike.save(update_fields=['vote'])`
updates the found row in place, `likedislike.delete()` removes it, and
`obj.votes.create(...)` inserts a fresh row for the target.  An unhandled
exception (article lookup failure, `MultipleObjectsReturned`) aborts the
request before any write, leaving the database unchanged; the result pairs
the database after the call with the surfaced error, if any. -/
def ChoiceView.post (vote_type : Vote) (ct : Nat) (db : DB) (slug : String)
    (user : Nat) : DB × Option Err :=
  match objectsGetArticle db.articles slug with
  | .error e => (db, some e)
  | .ok obj =>
    match objectsGetLikeDislike db.reactions ct obj.id user with
    | .ok likedislike =>
      if likedislike.vote ≠ vote_type then
        ({ db with reactions := db.reactions.map (fun r =>
             if keyMatches ct obj.id user r then { r with vote := vote_type }
             else r) }, none)
      else
        ({ db with reactions :=
             db.reactions.filter (fun r => !(keyMatches ct obj.id user r)) },
         none)
    | .error .doesNotExist =>
      ({ db with reactions :=
           db.reactions ++ [{ content_type := ct, object_id := obj.id,
                              user := user, vote := vote_type }] }, none)
    | .error e => (db, some e)

/-- Modelled from the spec: the authentication layer in front of
`ChoiceView.post` is not under `src/` (it lives in the project settings and
the framework's permission machinery).  Per the spec, a vote submission
"fails with Unauthorized if no authenticated user" and no row is written;
an authenticated request reaches `ChoiceView.post` with its user. -/
def ChoiceView.handle (vote_type : Vote) (ct : Nat) (db : DB) (slug : String)
    (user : Option Nat) : DB × Option Err :=
  match user with
  | none => (db, some .unauthorized)
  | some u => ChoiceView.post vote_type ct db slug u

/-- Modelled from the spec: `instance.votes.likes().count()` used by
`ArticleSerializer.get_likes` (`serializers.py` lines 94-95); the
`LikeDislikeManager` is in the missing `models.py`.  Per the spec's
`countReactions(targetType, targetId, LIKE)`: the number of Reaction rows
matching the target and the value LIKE. -/
def votesLikesCount (rs : List LikeDislikeRow) (ct oid : Nat) : Nat :=
  (rs.filter (fun r =>
    r.content_type == ct && r.object_id == oid && r.vote == Vote.LIKE)).length

/-- Modelled from the spec: `instance.votes.dislikes().count()` used by
`ArticleSerializer.get_dislikes` (`serializers.py` lines 97-99); per the
spec's `countReactions(targetType, targetId, DISLIKE)`. -/
def votesDislikesCount (rs : List LikeDislikeRow) (ct oid : Nat) : Nat :=
  (rs.filter (fun r =>
    r.content_type == ct && r.object_id == oid &&
      r.vote == Vote.DISLIKE)).length

/-- The distinct users holding an active reaction row on the target. -/
def usersOn (rs : List LikeDislikeRow) (ct oid : Nat) : List Nat :=
  ((rs.filter (fun r => r.content_type == ct && r.object_id == oid)).map
    (fun r => r.user)).dedup

/-- At most one `LikeDislike` row per (content type, object id, user) triple:
the identifying triples of the rows are pairwise distinct. -/
def UniqueReactions (rs : List LikeDislikeRow) : Prop :=
  (rs.map rowKey).Nodup

instance (rs : List LikeDislikeRow) : Decidable (UniqueReactions rs) := by
  unfold UniqueReactions
  infer_instance

/-- The reaction-ledger states reachable by sequences of `ChoiceView.post`
submissions starting from an empty ledger (the article table is fixed:
`post` never writes it). -/
inductive Reachable (articles : List Article) : List LikeDislikeRow → Prop
  | empty : Reachable articles []
  | step (rs : List LikeDislikeRow) (vt : Vote) (ct : Nat) (slug : String)
      (u : Nat) : Reachable articles rs →
      Reachable articles
        (ChoiceView.post vt ct { articles := articles, reactions := rs }
          slug u).1.reactions

/-- Outcome of a favorite/unfavorite request: `created` (HTTP 201),
`noContent` (HTTP 204), or `badRequest` (HTTP 400 rejection). -/
inductive ViewOutcome where
  | created
  | noContent
  | badRequest
deriving DecidableEq, Repr

/-- State touched by `FavoriteArticle` / `UnFavoriteArticle` for one article:
the article row and the users holding a Favorite relation to it. -/
structure FavState where
  favorites : List Nat
  article : Article
deriving DecidableEq, Repr

/-- Modelled from the spec: `profile.has_favorited(article)` from the missing
profiles `models.py`; per the spec's Favorite relation, whether the user
already holds a Favorite relation to the article. -/
def hasFavorited (favorites : List Nat) (u : Nat) : Bool :=
  favorites.contains u

/-- Modelled from the spec: `profile.favorite(article)` from the missing
profiles `models.py`; adds the user's Favorite relation to the article. -/
def favoriteAdd (favorites : List Nat) (u : Nat) : List Nat :=
  favorites ++ [u]

/-- Modelled from the spec: `profile.unfavorite(article)` from the missing
profiles `models.py`; removes the user's Favorite relation to the article. -/
def favoriteRemove (favorites : List Nat) (u : Nat) : List Nat :=
  favorites.filter (fun x => !(x == u))

/-- `FavoriteArticle.create` (`views.py` lines 179-199): reject favoriting
one's own article, reject favoriting twice, otherwise add the Favorite
relation, set `favorited`, and increment `favorites_count`. -/
def FavoriteArticle.create (u : Nat) (st : FavState) : FavState × ViewOutcome :=
  if st.article.author_id = u then (st, .badRequest)
  else if hasFavorited st.favorites u then (st, .badRequest)
  else
    ({ favorites := favoriteAdd st.favorites u
       article := { st.article with
                    favorited := true
                    favorites_count := st.article.favorites_count + 1 } },
     .created)

/-- `UnFavoriteArticle.destroy` (`views.py` lines 211-230): reject if the
article is not in the user's favorites, otherwise remove the Favorite
relation and, when `favorites_count > 0`, decrement it, clearing `favorited`
when the count reaches zero. -/
def UnFavoriteArticle.destroy (u : Nat) (st : FavState) :
    FavState × ViewOutcome :=
  if !(hasFavorited st.favorites u) then (st, .badRequest)
  else
    ({ favorites := favoriteRemove st.favorites u
       article :=
         if st.article.favorites_count > 0 then
           { st.article with
             favorites_count := st.article.favorites_count - 1
             favorited := if st.article.favorites_count - 1 = 0 then false
                          else st.article.favorited }
         else st.article }, .noContent)

/-- The denormalized-counter consistency of §3 of the spec: the Favorite
relation holds no duplicates and `favorites_count` equals the number of
users who have favorited the article. -/
def FavConsistent (st : FavState) : Prop :=
  st.favorites.Nodup ∧
    st.article.favorites_count = (st.favorites.length : Int)

instance (st : FavState) : Decidable (FavConsistent st) := by
  unfold FavConsistent
  infer_instance

/-- The fields of a `Rating` row that `RatingSerializer.create` reads or
writes; the score's decimal value is embedded as an integer number of
hundredths (`DecimalField(max_digits=5, decimal_places=2)`). -/
structure Rating where
  author : Nat
  articleSlug : String
  score : Int
deriving DecidableEq, Repr

/-- The filter used by `Rating.objects.get(author=author,
article__slug=article.slug)` in `RatingSerializer.create`. -/
def ratingKey (author : Nat) (slug : String) (r : Rating) : Bool :=
  r.author == author && r.articleSlug == slug

/-- `RatingSerializer.create` (`serializers.py` lines 158-174): look up the
author's existing rating of the article; if none exists create a new row,
otherwise overwrite the found row's score in place.  An uncaught
`MultipleObjectsReturned` aborts before any write. -/
def RatingSerializer.create (ratings : List Rating) (author : Nat)
    (slug : String) (score : Int) : List Rating × Option Err :=
  match ratings.filter (ratingKey author slug) with
  | [] => (ratings ++ [{ author := author, articleSlug := slug,
                         score := score }], none)
  | [_] => (ratings.map (fun r =>
      if ratingKey author slug r then { r with score := score } else r), none)
  | _ :: _ :: _ => (ratings, some .multipleObjectsReturned)

/-- At most one `Rating` row per (author, article) pair. -/
def RatingUniq (ratings : List Rating) : Prop :=
  (ratings.map (fun r => (r.author, r.articleSlug))).Nodup

instance (ratings : List Rating) : Decidable (RatingUniq ratings) := by
  unfold RatingUniq
  infer_instance

/-! ### Helper lemmas -/

theorem keyMatches_iff (ct oid u : Nat) (r : LikeDislikeRow) :
    keyMatches ct oid u r = true ↔ rowKey r = (ct, oid, u) := by
  simp [keyMatches, rowKey, and_assoc]

theorem post_insert (vt : Vote) (ct : Nat) (db : DB) (slug : String) (u : Nat)
    (obj : Article) (hA : objectsGetArticle db.articles slug = .ok obj)
    (hF : db.reactions.filter (keyMatches ct obj.id u) = []) :
    ChoiceView.post vt ct db slug u =
      ({ db with reactions := db.reactions ++
          [{ content_type := ct, object_id := obj.id, user := u,
             vote := vt }] }, none) := by
  simp only [ChoiceView.post, objectsGetLikeDislike, hA, hF]

theorem post_update (vt : Vote) (ct : Nat) (db : DB) (slug : String) (u : Nat)
    (obj : Article) (r : LikeDislikeRow)
    (hA : objectsGetArticle db.articles slug = .ok obj)
    (hF : db.reactions.filter (keyMatches ct obj.id u) = [r])
    (hv : r.vote ≠ vt) :
    ChoiceView.post vt ct db slug u =
      ({ db with reactions := db.reactions.map (fun x =>
           if keyMatches ct obj.id u x then { x with vote := vt } else x) },
       none) := by
  simp only [ChoiceView.post, objectsGetLikeDislike, hA, hF]
  simp [hv]

theorem post_delete (vt : Vote) (ct : Nat) (db : DB) (slug : String) (u : Nat)
    (obj : Article) (r : LikeDislikeRow)
    (hA : objectsGetArticle db.articles slug = .ok obj)
    (hF : db.reactions.filter (keyMatches ct obj.id u) = [r])
    (hv : r.vote = vt) :
    ChoiceView.post vt ct db slug u =
      ({ db with reactions :=
           db.reactions.filter (fun x => !(keyMatches ct obj.id u x)) },
       none) := by
  simp only [ChoiceView.post, objectsGetLikeDislike, hA, hF]
  simp [hv]

theorem post_multiple (vt : Vote) (ct : Nat) (db : DB) (slug : String)
    (u : Nat) (obj : Article) (r₁ r₂ : LikeDislikeRow)
    (t : List LikeDislikeRow)
    (hA : objectsGetArticle db.articles slug = .ok obj)
    (hF : db.reactions.filter (keyMatches ct obj.id u) = r₁ :: r₂ :: t) :
    ChoiceView.post vt ct db slug u = (db, some .multipleObjectsReturned) := by
  simp only [ChoiceView.post, objectsGetLikeDislike, hA, hF]

theorem post_articles_unchanged (vt : Vote) (ct : Nat) (db : DB)
    (slug : String) (u : Nat) :
    (ChoiceView.post vt ct db slug u).1.articles = db.articles := by
  unfold ChoiceView.post
  split
  · rfl
  · split
    · split <;> rfl
    · rfl
    · rfl

theorem filter_map_comm {α : Type} (f : α → α) (p : α → Bool) (l : List α)
    (h : ∀ x, p (f x) = p x) :
    (l.map f).filter p = (l.filter p).map f := by
  induction l with
  | nil => rfl
  | cons a t ih => cases hp : p a <;> simp [List.filter_cons, h a, hp, ih]

theorem length_filter_partition {α : Type} (p : α → Bool) (l : List α) :
    (l.filter p).length + (l.filter (fun x => !(p x))).length = l.length := by
  induction l with
  | nil => rfl
  | cons a t ih => cases hp : p a <;> simp [List.filter_cons, hp, ← ih] <;> omega

theorem filter_after_filter_not {α : Type} (p : α → Bool) (l : List α) :
    (l.filter (fun x => !(p x))).filter p = [] := by
  rw [List.filter_filter]
  apply List.filter_eq_nil_iff.mpr
  intro a _
  cases p a <;> simp

theorem filter_not_idem {α : Type} (p : α → Bool) (l : List α) :
    (l.filter (fun x => !(p x))).filter (fun x => !(p x)) =
      l.filter (fun x => !(p x)) := by
  rw [List.filter_filter]
  apply List.filter_congr
  intro a _
  cases p a <;> rfl

theorem keyMatches_vote_update (vt : Vote) (ct oid u : Nat)
    (x : LikeDislikeRow) :
    keyMatches ct oid u { x with vote := vt } = keyMatches ct oid u x := rfl

theorem rowKey_vote_update (vt : Vote) (x : LikeDislikeRow) :
    rowKey { x with vote := vt } = rowKey x := rfl

theorem eq_row_of_keyMatches (ct oid u : Nat) (vt : Vote) (r : LikeDislikeRow)
    (h : keyMatches ct oid u r = true) :
    { r with vote := vt } =
      ({ content_type := ct, object_id := oid, user := u,
         vote := vt } : LikeDislikeRow) := by
  rcases r with ⟨c, o, us, v⟩
  simp [keyMatches, and_assoc] at h
  obtain ⟨h1, h2, h3⟩ := h
  subst h1; subst h2; subst h3
  rfl

theorem uniq_append_fresh (rs : List LikeDislikeRow) (ct oid u : Nat)
    (vt : Vote) (hU : UniqueReactions rs)
    (hF : rs.filter (keyMatches ct oid u) = []) :
    UniqueReactions (rs ++
      [{ content_type := ct, object_id := oid, user := u, vote := vt }]) := by
  unfold UniqueReactions at *
  rw [List.map_append, List.nodup_append]
  refine ⟨hU, List.nodup_singleton _, ?_⟩
  intro k hk hmem
  simp only [List.map_cons, List.map_nil, List.mem_singleton] at hmem
  obtain ⟨r, hr, hkey⟩ := List.mem_map.mp hk
  have hnot := List.filter_eq_nil_iff.mp hF r hr
  apply hnot
  rw [keyMatches_iff, hkey, hmem]
  rfl

theorem post_preserves_unique (vt : Vote) (ct : Nat) (db : DB) (slug : String)
    (u : Nat) (hU : UniqueReactions db.reactions) :
    UniqueReactions (ChoiceView.post vt ct db slug u).1.reactions := by
  cases hA : objectsGetArticle db.articles slug with
  | error e =>
    have hpost : ChoiceView.post vt ct db slug u = (db, some e) := by
      simp only [ChoiceView.post, hA]
    rw [hpost]
    exact hU
  | ok obj =>
    rcases hF : db.reactions.filter (keyMatches ct obj.id u) with
      _ | ⟨r, _ | ⟨r₂, t⟩⟩
    · rw [post_insert vt ct db slug u obj hA hF]
      exact uniq_append_fresh _ _ _ _ _ hU hF
    · by_cases hv : r.vote = vt
      · rw [post_delete vt ct db slug u obj r hA hF hv]
        exact List.Nodup.sublist
          (List.Sublist.map rowKey (List.filter_sublist _)) hU
      · rw [post_update vt ct db slug u obj r hA hF hv]
        unfold UniqueReactions at *
        have hmaps : ((db.reactions.map (fun x =>
            if keyMatches ct obj.id u x then { x with vote := vt }
            else x)).map rowKey) = db.reactions.map rowKey := by
          rw [List.map_map]
          apply List.map_congr_left
          intro a _
          cases h : keyMatches ct obj.id u a <;>
            simp [Function.comp, h, rowKey_vote_update]
        rw [hmaps]
        exact hU
    · rw [post_multiple vt ct db slug u obj r r₂ t hA hF]
      exact hU

theorem reachable_unique (articles : List Article)
    (rs : List LikeDislikeRow) (h : Reachable articles rs) :
    UniqueReactions rs := by
  induction h with
  | empty =>
    unfold UniqueReactions
    simp
  | step rs vt ct slug u _ ih =>
    exact post_preserves_unique vt ct _ slug u ih

theorem keyMatches_self (ct oid u : Nat) (vt : Vote) :
    keyMatches ct oid u
      { content_type := ct, object_id := oid, user := u, vote := vt } =
      true := by
  simp [keyMatches]

theorem keyMatches_update_fn (vt : Vote) (ct oid u : Nat) :
    ∀ x, keyMatches ct oid u
        (if keyMatches ct oid u x then { x with vote := vt } else x) =
      keyMatches ct oid u x := by
  intro x
  cases h : keyMatches ct oid u x <;> simp [h, keyMatches_vote_update]

theorem update_filter_key (vt : Vote) (ct oid u : Nat)
    (rs : List LikeDislikeRow) (r : LikeDislikeRow)
    (hF : rs.filter (keyMatches ct oid u) = [r]) :
    ((rs.map (fun x =>
        if keyMatches ct oid u x then { x with vote := vt }
        else x)).filter (keyMatches ct oid u)) =
      [{ content_type := ct, object_id := oid, user := u, vote := vt }] := by
  rw [filter_map_comm _ _ _ (keyMatches_update_fn vt ct oid u), hF]
  have hkey : keyMatches ct oid u r = true :=
    (List.mem_filter.mp (by rw [hF]; exact List.mem_singleton_self r)).2
  simp only [List.map_cons, List.map_nil, hkey, if_true]
  rw [eq_row_of_keyMatches ct oid u vt r hkey]

theorem update_filter_not_key (vt : Vote) (ct oid u : Nat)
    (rs : List LikeDislikeRow) :
    ((rs.map (fun x =>
        if keyMatches ct oid u x then { x with vote := vt }
        else x)).filter (fun x => !(keyMatches ct oid u x))) =
      rs.filter (fun x => !(keyMatches ct oid u x)) := by
  rw [filter_map_comm _ _ _ (fun x => by
    rw [show (!(keyMatches ct oid u
        (if keyMatches ct oid u x then { x with vote := vt } else x))) =
      !(keyMatches ct oid u x) from by rw [keyMatches_update_fn]])]
  rw [List.map_congr_left (fun a ha => ?_), List.map_id]
  have hmem := List.mem_filter.mp ha
  have : keyMatches ct oid u a = false := by
    cases h : keyMatches ct oid u a
    · rfl
    · rw [h] at hmem
      simp at hmem
  simp [this]

theorem insert_filter_key (ct oid u : Nat) (vt : Vote)
    (rs : List LikeDislikeRow)
    (h0 : rs.filter (keyMatches ct oid u) = []) :
    ((rs ++ [({ content_type := ct, object_id := oid, user := u,
                vote := vt } : LikeDislikeRow)]).filter
        (keyMatches ct oid u)) =
      [{ content_type := ct, object_id := oid, user := u, vote := vt }] := by
  rw [List.filter_append, h0]
  simp [keyMatches_self]

theorem insert_filter_not_key (ct oid u : Nat) (vt : Vote)
    (rs : List LikeDislikeRow) :
    ((rs ++ [({ content_type := ct, object_id := oid, user := u,
                vote := vt } : LikeDislikeRow)]).filter
        (fun x => !(keyMatches ct oid u x))) =
      rs.filter (fun x => !(keyMatches ct oid u x)) := by
  rw [List.filter_append]
  simp [keyMatches_self]

/-! ### Claim theorems -/

/-- C1: For every vote submission via `ChoiceView.post` on an existing
target: if no `LikeDislike` row exists for (content type of target, target
id, requesting user), a new row with the submitted vote value is created; if
a row exists with a different vote value, that row's vote value is updated
in place to the submitted value (same other keys, same row count); if a row
exists with the same vote value, that row is deleted. -/
theorem choiceView_post_toggle (vt : Vote) (ct : Nat) (db : DB)
    (slug : String) (u : Nat) (obj : Article)
    (hA : objectsGetArticle db.articles slug = .ok obj) :
    (db.reactions.filter (keyMatches ct obj.id u) = [] →
      ChoiceView.post vt ct db slug u =
        ({ db with reactions := db.reactions ++
            [{ content_type := ct, object_id := obj.id, user := u,
               vote := vt }] }, none)) ∧
    (∀ r, db.reactions.filter (keyMatches ct obj.id u) = [r] →
      r.vote ≠ vt →
      (ChoiceView.post vt ct db slug u).2 = none ∧
      (ChoiceView.post vt ct db slug u).1.reactions.filter
          (keyMatches ct obj.id u) =
        [{ content_type := ct, object_id := obj.id, user := u,
           vote := vt }] ∧
      (ChoiceView.post vt ct db slug u).1.reactions.filter
          (fun x => !(keyMatches ct obj.id u x)) =
        db.reactions.filter (fun x => !(keyMatches ct obj.id u x)) ∧
      (ChoiceView.post vt ct db slug u).1.reactions.length =
        db.reactions.length) ∧
    (∀ r, db.reactions.filter (keyMatches ct obj.id u) = [r] →
      r.vote = vt →
      (ChoiceView.post vt ct db slug u).2 = none ∧
      (ChoiceView.post vt ct db slug u).1.reactions.filter
          (keyMatches ct obj.id u) = [] ∧
      (ChoiceView.post vt ct db slug u).1.reactions.filter
          (fun x => !(keyMatches ct obj.id u x)) =
        db.reactions.filter (fun x => !(keyMatches ct obj.id u x))) := by
  refine ⟨?_, ?_, ?_⟩
  · intro h0
    exact post_insert vt ct db slug u obj hA h0
  · intro r hF hv
    rw [post_update vt ct db slug u obj r hA hF hv]
    exact ⟨rfl, update_filter_key vt ct obj.id u db.reactions r hF,
      update_filter_not_key vt ct obj.id u db.reactions,
      List.length_map _ _⟩
  · intro r hF hv
    rw [post_delete vt ct db slug u obj r hA hF hv]
    exact ⟨rfl, filter_after_filter_not _ _, filter_not_idem _ _⟩

/-- Witness for C1: a concrete first LIKE vote on an article with no prior
reaction appends exactly the new row. -/
theorem choiceView_post_toggle_witness :
    List.filter (keyMatches 3 1 7) ([] : List LikeDislikeRow) = [] ∧
    ChoiceView.post Vote.LIKE 3
        { articles := [{ id := 1, slug := "s", author_id := 9,
                         favorited := false, favorites_count := 0 }],
          reactions := [] } "s" 7 =
      ({ articles := [{ id := 1, slug := "s", author_id := 9,
                        favorited := false, favorites_count := 0 }],
         reactions := [{ content_type := 3, object_id := 1, user := 7,
                         vote := Vote.LIKE }] }, none) :=
  ⟨rfl,
    (choiceView_post_toggle Vote.LIKE 3
      { articles := [{ id := 1, slug := "s", author_id := 9,
                       favorited := false, favorites_count := 0 }],
        reactions := [] } "s" 7
      { id := 1, slug := "s", author_id := 9, favorited := false,
        favorites_count := 0 } rfl).1 rfl⟩

/-- C2: for every target and user with no prior reaction, submitting LIKE
twice in sequence through `ChoiceView.post` leaves no `LikeDislike` row for
that (target, user): the second identical submission removes the row created
by the first. -/
theorem post_like_like_removes (ct : Nat) (db : DB) (slug : String) (u : Nat)
    (obj : Article) (hA : objectsGetArticle db.articles slug = .ok obj)
    (h0 : db.reactions.filter (keyMatches ct obj.id u) = []) :
    (ChoiceView.post Vote.LIKE ct db slug u).2 = none ∧
    (ChoiceView.post Vote.LIKE ct (ChoiceView.post Vote.LIKE ct db slug u).1
        slug u).2 = none ∧
    (ChoiceView.post Vote.LIKE ct (ChoiceView.post Vote.LIKE ct db slug u).1
        slug u).1.reactions.filter (keyMatches ct obj.id u) = [] := by
  have e1 := post_insert Vote.LIKE ct db slug u obj hA h0
  have hF1 : ({ db with reactions := db.reactions ++
      [{ content_type := ct, object_id := obj.id, user := u,
         vote := Vote.LIKE }] } : DB).reactions.filter
        (keyMatches ct obj.id u) =
      [{ content_type := ct, object_id := obj.id, user := u,
         vote := Vote.LIKE }] :=
    insert_filter_key ct obj.id u Vote.LIKE db.reactions h0
  have e2 := post_delete Vote.LIKE ct
    ({ db with reactions := db.reactions ++
       [{ content_type := ct, object_id := obj.id, user := u,
          vote := Vote.LIKE }] }) slug u obj _ hA hF1 rfl
  rw [e1]
  dsimp only
  rw [e2]
  exact ⟨rfl, rfl, filter_after_filter_not _ _⟩

/-- Witness for C2: concretely, liking then liking again deletes the user's
reaction row. -/
theorem post_like_like_removes_witness :
    objectsGetArticle [{ id := 1, slug := "s", author_id := 9,
                         favorited := false, favorites_count := 0 }] "s" =
      .ok { id := 1, slug := "s", author_id := 9, favorited := false,
            favorites_count := 0 } ∧
    (ChoiceView.post Vote.LIKE 3 (ChoiceView.post Vote.LIKE 3
        { articles := [{ id := 1, slug := "s", author_id := 9,
                         favorited := false, favorites_count := 0 }],
          reactions := [] } "s" 7).1 "s" 7).1.reactions.filter
      (keyMatches 3 1 7) = [] :=
  ⟨rfl,
    (post_like_like_removes 3
      { articles := [{ id := 1, slug := "s", author_id := 9,
                       favorited := false, favorites_count := 0 }],
        reactions := [] } "s" 7
      { id := 1, slug := "s", author_id := 9, favorited := false,
        favorites_count := 0 } rfl rfl).2.2⟩

/-- C3: for every target and user with no prior reaction, submitting LIKE
then DISLIKE through `ChoiceView.post` leaves exactly one `LikeDislike` row
for that (target, user), with vote value DISLIKE: the switch overwrites the
existing row rather than creating a second one. -/
theorem post_like_dislike_switches (ct : Nat) (db : DB) (slug : String)
    (u : Nat) (obj : Article)
    (hA : objectsGetArticle db.articles slug = .ok obj)
    (h0 : db.reactions.filter (keyMatches ct obj.id u) = []) :
    (ChoiceView.post Vote.LIKE ct db slug u).2 = none ∧
    (ChoiceView.post Vote.DISLIKE ct
        (ChoiceView.post Vote.LIKE ct db slug u).1 slug u).2 = none ∧
    (ChoiceView.post Vote.DISLIKE ct
        (ChoiceView.post Vote.LIKE ct db slug u).1 slug
        u).1.reactions.filter (keyMatches ct obj.id u) =
      [{ content_type := ct, object_id := obj.id, user := u,
         vote := Vote.DISLIKE }] := by
  have e1 := post_insert Vote.LIKE ct db slug u obj hA h0
  have hF1 : ({ db with reactions := db.reactions ++
      [{ content_type := ct, object_id := obj.id, user := u,
         vote := Vote.LIKE }] } : DB).reactions.filter
        (keyMatches ct obj.id u) =
      [{ content_type := ct, object_id := obj.id, user := u,
         vote := Vote.LIKE }] :=
    insert_filter_key ct obj.id u Vote.LIKE db.reactions h0
  have e2 := post_update Vote.DISLIKE ct
    ({ db with reactions := db.reactions ++
       [{ content_type := ct, object_id := obj.id, user := u,
          vote := Vote.LIKE }] }) slug u obj _ hA hF1 (by simp)
  rw [e1]
  dsimp only
  rw [e2]
  exact ⟨rfl, rfl, update_filter_key Vote.DISLIKE ct obj.id u _ _ hF1⟩

/-- Witness for C3: concretely, liking then disliking leaves one DISLIKE
row for the user on the article. -/
theorem post_like_dislike_switches_witness :
    objectsGetArticle [{ id := 1, slug := "s", author_id := 9,
                         favorited := false, favorites_count := 0 }] "s" =
      .ok { id := 1, slug := "s", author_id := 9, favorited := false,
            favorites_count := 0 } ∧
    (ChoiceView.post Vote.DISLIKE 3 (ChoiceView.post Vote.LIKE 3
        { articles := [{ id := 1, slug := "s", author_id := 9,
                         favorited := false, favorites_count := 0 }],
          reactions := [] } "s" 7).1 "s" 7).1.reactions.filter
      (keyMatches 3 1 7) =
      [{ content_type := 3, object_id := 1, user := 7,
         vote := Vote.DISLIKE }] :=
  ⟨rfl,
    (post_like_dislike_switches 3
      { articles := [{ id := 1, slug := "s", author_id := 9,
                       favorited := false, favorites_count := 0 }],
        reactions := [] } "s" 7
      { id := 1, slug := "s", author_id := 9, favorited := false,
        favorites_count := 0 } rfl rfl).2.2⟩

/-- C4: at most one `LikeDislike` row exists per (content type, object id,
user) triple in every ledger state reachable by vote submissions from the
empty ledger, and every single `ChoiceView.post` submission preserves this
uniqueness invariant. -/
theorem reaction_ledger_unique_invariant :
    (∀ (articles : List Article) (rs : List LikeDislikeRow),
       Reachable articles rs → UniqueReactions rs) ∧
    (∀ (vt : Vote) (ct : Nat) (db : DB) (slug : String) (u : Nat),
       UniqueReactions db.reactions →
       UniqueReactions (ChoiceView.post vt ct db slug u).1.reactions) :=
  ⟨reachable_unique, post_preserves_unique⟩

/-- Witness for C4: the ledger reached by one concrete LIKE submission from
the empty ledger satisfies the uniqueness invariant. -/
theorem reaction_ledger_unique_invariant_witness :
    UniqueReactions (ChoiceView.post Vote.LIKE 3
      { articles := [{ id := 1, slug := "s", author_id := 9,
                       favorited := false, favorites_count := 0 }],
        reactions := [] } "s" 7).1.reactions :=
  reaction_ledger_unique_invariant.1
    [{ id := 1, slug := "s", author_id := 9, favorited := false,
       favorites_count := 0 }] _
    (Reachable.step [] Vote.LIKE 3 "s" 7 Reachable.empty)

/-- C5: a vote submission whose slug matches no existing article fails with
the spec's NotFound error (the `DoesNotExist` exception raised by the
article lookup aborts the request before any write) and the database — in
particular the `LikeDislike` table — is returned unchanged: no row is
inserted, updated, or deleted. -/
theorem post_missing_target (vt : Vote) (ct : Nat) (db : DB) (slug : String)
    (u : Nat) (h : db.articles.filter (fun a => a.slug == slug) = []) :
    ChoiceView.post vt ct db slug u = (db, some Err.doesNotExist) := by
  simp only [ChoiceView.post, objectsGetArticle, h]

/-- Witness for C5: voting on a concrete missing slug surfaces the
NotFound failure and leaves the state untouched. -/
theorem post_missing_target_witness :
    List.filter (fun a => a.slug == "missing")
      [({ id := 1, slug := "s", author_id := 9, favorited := false,
          favorites_count := 0 } : Article)] = [] ∧
    ChoiceView.post Vote.LIKE 3
        { articles := [{ id := 1, slug := "s", author_id := 9,
                         favorited := false, favorites_count := 0 }],
          reactions := [] } "missing" 7 =
      ({ articles := [{ id := 1, slug := "s", author_id := 9,
                        favorited := false, favorites_count := 0 }],
         reactions := [] }, some Err.doesNotExist) :=
  ⟨rfl,
    post_missing_target Vote.LIKE 3
      { articles := [{ id := 1, slug := "s", author_id := 9,
                       favorited := false, favorites_count := 0 }],
        reactions := [] } "missing" 7 rfl⟩

/-- C6: a vote submission by a caller with no authenticated user is
rejected with Unauthorized and the database is returned unchanged: no
`LikeDislike` row is written. -/
theorem handle_unauthenticated (vt : Vote) (ct : Nat) (db : DB)
    (slug : String) :
    ChoiceView.handle vt ct db slug none = (db, some Err.unauthorized) := rfl

theorem filter_and_comm {α : Type} (p q : α → Bool) (l : List α) :
    l.filter (fun x => p x && q x) = l.filter (fun x => q x && p x) :=
  List.filter_congr (fun x _ => Bool.and_comm (p x) (q x))

/-- C7: in every reachable reaction-ledger state, the LIKE count plus the
DISLIKE count on a target equals the number of distinct users who hold an
active reaction row on that target. -/
theorem likes_add_dislikes_eq_users (articles : List Article)
    (rs : List LikeDislikeRow) (ct oid : Nat)
    (h : Reachable articles rs) :
    votesLikesCount rs ct oid + votesDislikesCount rs ct oid =
      (usersOn rs ct oid).length := by
  have hU : UniqueReactions rs := reachable_unique articles rs h
  have hlike : votesLikesCount rs ct oid =
      ((rs.filter (fun r =>
          r.content_type == ct && r.object_id == oid)).filter
        (fun r => r.vote == Vote.LIKE)).length := by
    unfold votesLikesCount
    rw [List.filter_filter]
    congr 1
    apply List.filter_congr
    intro x _
    exact Bool.and_comm _ _
  have hdis : votesDislikesCount rs ct oid =
      ((rs.filter (fun r =>
          r.content_type == ct && r.object_id == oid)).filter
        (fun r => r.vote == Vote.DISLIKE)).length := by
    unfold votesDislikesCount
    rw [List.filter_filter]
    congr 1
    apply List.filter_congr
    intro x _
    exact Bool.and_comm _ _
  have hpart : ((rs.filter (fun r =>
        r.content_type == ct && r.object_id == oid)).filter
          (fun r => r.vote == Vote.LIKE)).length +
      ((rs.filter (fun r =>
        r.content_type == ct && r.object_id == oid)).filter
          (fun r => r.vote == Vote.DISLIKE)).length =
      (rs.filter (fun r =>
        r.content_type == ct && r.object_id == oid)).length := by
    have hd : (rs.filter (fun r =>
          r.content_type == ct && r.object_id == oid)).filter
            (fun r => r.vote == Vote.DISLIKE) =
        (rs.filter (fun r =>
          r.content_type == ct && r.object_id == oid)).filter
            (fun r => !(r.vote == Vote.LIKE)) := by
      apply List.filter_congr
      intro x _
      rcases x with ⟨c, o, us, v⟩
      cases v <;> rfl
    rw [hd]
    exact length_filter_partition _ _
  have husers : (((rs.filter (fun r =>
      r.content_type == ct && r.object_id == oid)).map
        (fun r => r.user))).Nodup := by
    have hsub : (((rs.filter (fun r =>
        r.content_type == ct && r.object_id == oid)).map rowKey)).Nodup :=
      List.Nodup.sublist (List.Sublist.map rowKey (List.filter_sublist _)) hU
    have hpair := List.pairwise_map.mp hsub
    apply List.pairwise_map.mpr
    apply List.Pairwise.imp_of_mem ?_ hpair
    intro a b ha hb hne hueq
    apply hne
    have ha' := (List.mem_filter.mp ha).2
    have hb' := (List.mem_filter.mp hb).2
    simp only [Bool.and_eq_true, beq_iff_eq] at ha' hb'
    simp [rowKey, ha'.1, ha'.2, hb'.1, hb'.2, hueq]
  rw [hlike, hdis, hpart]
  unfold usersOn
  rw [List.dedup_eq_self.mpr husers, List.length_map]

/-- Witness for C7: the counts agree on the concrete ledger reached by one
LIKE submission. -/
theorem likes_add_dislikes_eq_users_witness :
    votesLikesCount (ChoiceView.post Vote.LIKE 3
        { articles := [{ id := 1, slug := "s", author_id := 9,
                         favorited := false, favorites_count := 0 }],
          reactions := [] } "s" 7).1.reactions 3 1 +
      votesDislikesCount (ChoiceView.post Vote.LIKE 3
        { articles := [{ id := 1, slug := "s", author_id := 9,
                         favorited := false, favorites_count := 0 }],
          reactions := [] } "s" 7).1.reactions 3 1 =
      (usersOn (ChoiceView.post Vote.LIKE 3
        { articles := [{ id := 1, slug := "s", author_id := 9,
                         favorited := false, favorites_count := 0 }],
          reactions := [] } "s" 7).1.reactions 3 1).length :=
  likes_add_dislikes_eq_users
    [{ id := 1, slug := "s", author_id := 9, favorited := false,
       favorites_count := 0 }] _ 3 1
    (Reachable.step [] Vote.LIKE 3 "s" 7 Reachable.empty)

/-- C8: a successful vote submission via `ChoiceView.post` changes the
reaction ledger at exactly one (content type, object id, user) key —
inserting one row, updating one row in place, or deleting one row — and
leaves the article table and every reaction row with a different key
unchanged. -/
theorem post_frame_effect (vt : Vote) (ct : Nat) (db : DB) (slug : String)
    (u : Nat) (obj : Article)
    (hA : objectsGetArticle db.articles slug = .ok obj)
    (hOk : (ChoiceView.post vt ct db slug u).2 = none) :
    (ChoiceView.post vt ct db slug u).1.articles = db.articles ∧
    (ChoiceView.post vt ct db slug u).1.reactions.filter
        (fun x => !(keyMatches ct obj.id u x)) =
      db.reactions.filter (fun x => !(keyMatches ct obj.id u x)) ∧
    ((db.reactions.filter (keyMatches ct obj.id u) = [] ∧
      (ChoiceView.post vt ct db slug u).1.reactions.filter
          (keyMatches ct obj.id u) =
        [{ content_type := ct, object_id := obj.id, user := u,
           vote := vt }] ∧
      (ChoiceView.post vt ct db slug u).1.reactions.length =
        db.reactions.length + 1) ∨
     (∃ r, db.reactions.filter (keyMatches ct obj.id u) = [r] ∧
      r.vote ≠ vt ∧
      (ChoiceView.post vt ct db slug u).1.reactions.filter
          (keyMatches ct obj.id u) =
        [{ content_type := ct, object_id := obj.id, user := u,
           vote := vt }] ∧
      (ChoiceView.post vt ct db slug u).1.reactions.length =
        db.reactions.length) ∨
     (∃ r, db.reactions.filter (keyMatches ct obj.id u) = [r] ∧
      r.vote = vt ∧
      (ChoiceView.post vt ct db slug u).1.reactions.filter
          (keyMatches ct obj.id u) = [] ∧
      (ChoiceView.post vt ct db slug u).1.reactions.length + 1 =
        db.reactions.length)) := by
  rcases hF : db.reactions.filter (keyMatches ct obj.id u) with
    _ | ⟨r, _ | ⟨r₂, t⟩⟩
  · rw [post_insert vt ct db slug u obj hA hF]
    refine ⟨rfl, insert_filter_not_key ct obj.id u vt db.reactions,
      Or.inl ⟨rfl, insert_filter_key ct obj.id u vt db.reactions hF, ?_⟩⟩
    simp
  · by_cases hv : r.vote = vt
    · rw [post_delete vt ct db slug u obj r hA hF hv]
      refine ⟨rfl, filter_not_idem _ _,
        Or.inr (Or.inr ⟨r, rfl, hv, filter_after_filter_not _ _, ?_⟩)⟩
      have hp := length_filter_partition (keyMatches ct obj.id u)
        db.reactions
      rw [hF] at hp
      simp at hp
      dsimp only
      omega
    · rw [post_update vt ct db slug u obj r hA hF hv]
      exact ⟨rfl, update_filter_not_key vt ct obj.id u db.reactions,
        Or.inr (Or.inl ⟨r, rfl, hv,
          update_filter_key vt ct obj.id u db.reactions r hF,
          List.length_map _ _⟩)⟩
  · rw [post_multiple vt ct db slug u obj r r₂ t hA hF] at hOk
    simp at hOk

/-- Witness for C8: the frame conditions at a concrete first LIKE vote. -/
theorem post_frame_effect_witness :
    (ChoiceView.post Vote.LIKE 3
        { articles := [{ id := 1, slug := "s", author_id := 9,
                         favorited := false, favorites_count := 0 }],
          reactions := [] } "s" 7).2 = none ∧
    (ChoiceView.post Vote.LIKE 3
        { articles := [{ id := 1, slug := "s", author_id := 9,
                         favorited := false, favorites_count := 0 }],
          reactions := [] } "s" 7).1.articles =
      [{ id := 1, slug := "s", author_id := 9, favorited := false,
         favorites_count := 0 }] ∧
    (ChoiceView.post Vote.LIKE 3
        { articles := [{ id := 1, slug := "s", author_id := 9,
                         favorited := false, favorites_count := 0 }],
          reactions := [] } "s" 7).1.reactions.filter
        (fun x => !(keyMatches 3 1 7 x)) = [] :=
  ⟨rfl,
    (post_frame_effect Vote.LIKE 3
      { articles := [{ id := 1, slug := "s", author_id := 9,
                       favorited := false, favorites_count := 0 }],
        reactions := [] } "s" 7
      { id := 1, slug := "s", author_id := 9, favorited := false,
        favorites_count := 0 } rfl rfl).1,
    (post_frame_effect Vote.LIKE 3
      { articles := [{ id := 1, slug := "s", author_id := 9,
                       favorited := false, favorites_count := 0 }],
        reactions := [] } "s" 7
      { id := 1, slug := "s", author_id := 9, favorited := false,
        favorites_count := 0 } rfl rfl).2.1⟩

theorem filter_eq_singleton_of_nodup (l : List Nat) (u : Nat)
    (hN : l.Nodup) (hu : u ∈ l) :
    l.filter (fun x => x == u) = [u] := by
  induction l with
  | nil => cases hu
  | cons a t ih =>
    rw [List.nodup_cons] at hN
    rcases List.mem_cons.mp hu with rfl | hmem
    · rw [List.filter_cons_of_pos (by simp)]
      have ht : t.filter (fun x => x == u) = [] := by
        apply List.filter_eq_nil_iff.mpr
        intro x hx
        simp only [beq_iff_eq]
        intro heq
        exact hN.1 (heq ▸ hx)
      rw [ht]
    · have hne : a ≠ u := fun heq => hN.1 (heq ▸ hmem)
      rw [List.filter_cons_of_neg (by simp [hne])]
      exact ih hN.2 hmem

/-- C9: starting from a state where an article's `favorites_count` equals
the number of users who have favorited it, `FavoriteArticle.create` and
`UnFavoriteArticle.destroy` preserve that equality: a successful favorite
adds one Favorite relation and increments `favorites_count` by one, a
successful unfavorite removes one relation and decrements it by one, and
rejected calls change neither. -/
theorem favorite_count_consistency (u : Nat) (st : FavState)
    (hC : FavConsistent st) :
    (FavConsistent (FavoriteArticle.create u st).1 ∧
     ((FavoriteArticle.create u st).2 = ViewOutcome.created →
       (FavoriteArticle.create u st).1.favorites.length =
         st.favorites.length + 1 ∧
       (FavoriteArticle.create u st).1.article.favorites_count =
         st.article.favorites_count + 1) ∧
     ((FavoriteArticle.create u st).2 = ViewOutcome.badRequest →
       (FavoriteArticle.create u st).1 = st)) ∧
    (FavConsistent (UnFavoriteArticle.destroy u st).1 ∧
     ((UnFavoriteArticle.destroy u st).2 = ViewOutcome.noContent →
       (UnFavoriteArticle.destroy u st).1.favorites.length + 1 =
         st.favorites.length ∧
       (UnFavoriteArticle.destroy u st).1.article.favorites_count + 1 =
         st.article.favorites_count) ∧
     ((UnFavoriteArticle.destroy u st).2 = ViewOutcome.badRequest →
       (UnFavoriteArticle.destroy u st).1 = st)) := by
  obtain ⟨hN, hcount⟩ := hC
  constructor
  · unfold FavoriteArticle.create
    by_cases h1 : st.article.author_id = u
    · rw [if_pos h1]
      exact ⟨⟨hN, hcount⟩, fun h => by simp at h, fun _ => rfl⟩
    · rw [if_neg h1]
      cases hf : hasFavorited st.favorites u
      · rw [if_neg Bool.false_ne_true]
        have hu : u ∉ st.favorites := by
          have := hf
          unfold hasFavorited at this
          simpa using this
        refine ⟨⟨?_, ?_⟩, ?_, fun h => by simp at h⟩
        · unfold favoriteAdd
          rw [List.nodup_append]
          exact ⟨hN, List.nodup_singleton u,
            fun a ha hb => hu ((List.mem_singleton.mp hb) ▸ ha)⟩
        · show st.article.favorites_count + 1 =
            ((favoriteAdd st.favorites u).length : Int)
          unfold favoriteAdd
          simp [hcount]
        · intro _
          constructor
          · show (favoriteAdd st.favorites u).length =
              st.favorites.length + 1
            unfold favoriteAdd
            simp
          · rfl
      · rw [if_pos rfl]
        exact ⟨⟨hN, hcount⟩, fun h => by simp at h, fun _ => rfl⟩
  · unfold UnFavoriteArticle.destroy
    cases hf : hasFavorited st.favorites u
    · rw [if_pos (show (!false) = true from rfl)]
      exact ⟨⟨hN, hcount⟩, fun h => by simp at h, fun _ => rfl⟩
    · rw [if_neg (show ¬((!true) = true) by simp)]
      have hu : u ∈ st.favorites := by
        have := hf
        unfold hasFavorited at this
        simpa using this
      have hlen : (favoriteRemove st.favorites u).length + 1 =
          st.favorites.length := by
        have hs := filter_eq_singleton_of_nodup st.favorites u hN hu
        have hp := length_filter_partition (fun x => x == u) st.favorites
        rw [hs] at hp
        unfold favoriteRemove
        simp at hp
        omega
      have hpos : 0 < st.article.favorites_count := by
        have h1 : 0 < st.favorites.length := List.length_pos_of_mem hu
        omega
      rw [if_pos hpos]
      refine ⟨⟨List.Nodup.filter _ hN, ?_⟩,
        fun _ => ⟨hlen,
          show st.article.favorites_count - 1 + 1 =
            st.article.favorites_count by omega⟩,
        fun h => by simp at h⟩
      show st.article.favorites_count - 1 =
        ((favoriteRemove st.favorites u).length : Int)
      omega

/-- Witness for C9: a concrete consistent state stays consistent after a
concrete unfavorite. -/
theorem favorite_count_consistency_witness :
    FavConsistent { favorites := [5],
                    article := { id := 1, slug := "s", author_id := 9,
                                 favorited := true,
                                 favorites_count := 1 } } ∧
    FavConsistent (UnFavoriteArticle.destroy 5
      { favorites := [5],
        article := { id := 1, slug := "s", author_id := 9,
                     favorited := true, favorites_count := 1 } }).1 :=
  ⟨by decide,
    (favorite_count_consistency 5
      { favorites := [5],
        article := { id := 1, slug := "s", author_id := 9,
                     favorited := true, favorites_count := 1 } }
      (by decide)).2.1⟩

theorem ratingKey_score_update (a : Nat) (s : String) (score : Int)
    (x : Rating) :
    ratingKey a s { x with score := score } = ratingKey a s x := rfl

theorem ratingKey_update_fn (a : Nat) (s : String) (score : Int) :
    ∀ x, ratingKey a s
        (if ratingKey a s x then { x with score := score } else x) =
      ratingKey a s x := by
  intro x
  cases h : ratingKey a s x <;> simp [h, ratingKey_score_update]

theorem rating_row_of_key (a : Nat) (s : String) (score : Int) (r : Rating)
    (h : ratingKey a s r = true) :
    { r with score := score } =
      ({ author := a, articleSlug := s, score := score } : Rating) := by
  rcases r with ⟨ra, rs, rc⟩
  simp [ratingKey] at h
  obtain ⟨h1, h2⟩ := h
  subst h1; subst h2
  rfl

/-- C10: `RatingSerializer.create` preserves the at-most-one-Rating-per
(author, article) invariant: it looks up the author's existing rating of
the article and overwrites its score in place instead of inserting a second
row, so after any create the author has exactly one rating row for the
article, holding the submitted score. -/
theorem rating_create_unique (ratings : List Rating) (author : Nat)
    (slug : String) (score : Int) (hU : RatingUniq ratings) :
    (RatingSerializer.create ratings author slug score).2 = none ∧
    RatingUniq (RatingSerializer.create ratings author slug score).1 ∧
    (RatingSerializer.create ratings author slug score).1.filter
        (ratingKey author slug) =
      [{ author := author, articleSlug := slug, score := score }] := by
  rcases hF : ratings.filter (ratingKey author slug) with _ | ⟨r, _ | ⟨r₂, t⟩⟩
  · simp only [RatingSerializer.create, hF]
    refine ⟨trivial, ?_, ?_⟩
    · unfold RatingUniq at *
      rw [List.map_append, List.nodup_append]
      refine ⟨hU, by simp, ?_⟩
      intro k hk hmem
      simp only [List.map_cons, List.map_nil, List.mem_singleton] at hmem
      obtain ⟨x, hx, hxk⟩ := List.mem_map.mp hk
      have hnot := List.filter_eq_nil_iff.mp hF x hx
      apply hnot
      have : x.author = author ∧ x.articleSlug = slug := by
        have := hxk.trans hmem
        exact ⟨congrArg Prod.fst this, congrArg Prod.snd this⟩
      simp [ratingKey, this.1, this.2]
    · rw [List.filter_append, hF]
      simp [ratingKey]
  · simp only [RatingSerializer.create, hF]
    have hkey : ratingKey author slug r = true :=
      (List.mem_filter.mp (by rw [hF]; exact List.mem_singleton_self r)).2
    refine ⟨trivial, ?_, ?_⟩
    · unfold RatingUniq at *
      have hmaps : ((ratings.map (fun x =>
          if ratingKey author slug x then { x with score := score }
          else x)).map (fun r => (r.author, r.articleSlug))) =
          ratings.map (fun r => (r.author, r.articleSlug)) := by
        rw [List.map_map]
        apply List.map_congr_left
        intro x _
        cases h : ratingKey author slug x <;> simp [Function.comp, h]
      rw [hmaps]
      exact hU
    · rw [filter_map_comm _ _ _ (ratingKey_update_fn author slug score), hF]
      simp only [List.map_cons, List.map_nil, hkey, if_true]
      rw [rating_row_of_key author slug score r hkey]
  · exfalso
    have hsub : (((ratings.filter (ratingKey author slug)).map
        (fun r => (r.author, r.articleSlug)))).Nodup :=
      List.Nodup.sublist
        (List.Sublist.map _ (List.filter_sublist _)) hU
    rw [hF] at hsub
    have hr : ratingKey author slug r = true :=
      (List.mem_filter.mp (by rw [hF]; exact List.mem_cons_self r _)).2
    have hr₂ : ratingKey author slug r₂ = true :=
      (List.mem_filter.mp (by
        rw [hF]
        exact List.mem_cons_of_mem r (List.mem_cons_self r₂ t))).2
    simp only [ratingKey, Bool.and_eq_true, beq_iff_eq] at hr hr₂
    rw [List.map_cons, List.map_cons, List.nodup_cons] at hsub
    exact hsub.1 (by rw [hr.1, hr.2, hr₂.1, hr₂.2]; exact List.mem_cons_self _ _)

/-- Witness for C10: re-rating a concretely rated article keeps exactly one
rating row, holding the new score. -/
theorem rating_create_unique_witness :
    RatingUniq [({ author := 2, articleSlug := "s", score := 3 } : Rating)] ∧
    (RatingSerializer.create
        [({ author := 2, articleSlug := "s", score := 3 } : Rating)]
        2 "s" 5).1.filter (ratingKey 2 "s") =
      [{ author := 2, articleSlug := "s", score := 5 }] :=
  ⟨by decide,
    (rating_create_unique
      [({ author := 2, articleSlug := "s", score := 3 } : Rating)]
      2 "s" 5 (by decide)).2.2⟩

end AhBackendGroot
